import Mathlib

/-
  Formal model of the chat relay server in src/main.rs (ikmyung-chat).

  Times are modelled in milliseconds as `Nat` (the source uses
  `std::time::Instant` / `Duration`; `Duration::from_secs(1)` is 1000 ms and
  `as_secs` is division by 1000).  History entries and bus messages are JSON
  strings in the source; serialization of a `WsFrame` is injective and the
  outbound loop decodes it back, so both are modelled as `WsFrame` values
  directly.
-/

set_option maxHeartbeats 1000000
set_option maxRecDepth 40000

namespace IkmyungChat

/-- Constant `MESSAGE_RATE_LIMIT` from main.rs line 51 (declared but unused
in the source). -/
def MESSAGE_RATE_LIMIT : Nat := 10

/-- Constant `MESSAGE_COUNT_LIMIT` from main.rs line 52: burst threshold. -/
def MESSAGE_COUNT_LIMIT : Nat := 5

/-- Constant `MAX_WARNINGS` from main.rs line 53. -/
def MAX_WARNINGS : Nat := 1

/-- Constant `BAN_DURATION` from main.rs line 54: 300 seconds, in ms. -/
def BAN_DURATION : Nat := 300000

/-- `Duration::from_secs(1)` from main.rs line 175, in ms. -/
def ONE_SECOND : Nat := 1000

/-- Struct `UserActivity` from main.rs lines 31-38.  `ban_until` is an
`Option` of an instant, as in the source. -/
structure UserActivity where
  message_count : Nat
  last_message_time : Nat
  warnings : Nat
  is_banned : Bool
  ban_until : Option Nat
deriving DecidableEq, Repr

/-- The three distinct rejection strings produced by `check_spam`
(main.rs lines 165, 189, 192), each with its interpolated values. -/
inductive SpamMsg where
  | banRemaining (remainingSecs : Nat)
  | bannedNow
  | warnCount (current : Nat) (limit : Nat)
deriving DecidableEq, Repr

/-- Decidable equality for the gate result type. -/
instance : DecidableEq (Except SpamMsg Unit) := fun a b =>
  match a, b with
  | Except.ok x, Except.ok y => isTrue (by cases x; cases y; rfl)
  | Except.error x, Except.error y => if h : x = y then isTrue (by rw [h]) else isFalse (by simp [h])
  | Except.ok _, Except.error _ => isFalse (by simp)
  | Except.error _, Except.ok _ => isFalse (by simp)

/-- Rendering of `SpamMsg` to the exact strings formatted at
main.rs lines 165, 189 and 192. -/
def renderSpamMsg : SpamMsg → String
  | SpamMsg.banRemaining r => "차단 상태입니다. " ++ toString r ++ "초 후에 다시 시도해주세요."
  | SpamMsg.bannedNow => "도배로 인해 5분간 차단되었습니다."
  | SpamMsg.warnCount w limit =>
      "너무 빠르게 메시지를 보내고 있습니다. 경고: " ++ toString w ++ "/" ++ toString limit

/-- The record inserted by `or_insert` at main.rs lines 153-159. -/
def freshActivity (now : Nat) : UserActivity :=
  ⟨0, now, 0, false, none⟩

/-- The accounting part of `check_spam`, main.rs lines 175-195: rolling
window update, then the burst-threshold / warning / ban logic. -/
def spamAccounting (a : UserActivity) (now : Nat) : Except SpamMsg Unit × UserActivity :=
  let count := if now - a.last_message_time < ONE_SECOND then a.message_count + 1 else 1
  let a1 : UserActivity := { a with message_count := count, last_message_time := now }
  if count > MESSAGE_COUNT_LIMIT then
    let a2 : UserActivity := { a1 with warnings := a1.warnings + 1 }
    if a2.warnings ≥ MAX_WARNINGS then
      (Except.error SpamMsg.bannedNow,
        { a2 with is_banned := true, ban_until := some (now + BAN_DURATION) })
    else
      (Except.error (SpamMsg.warnCount a2.warnings MAX_WARNINGS), a2)
  else
    (Except.ok (), a1)

/-- `check_spam` from main.rs lines 149-196, for a single identifier's
entry (`none` when the identifier has no record yet; the source's
`or_insert` inserts `freshActivity now` in that case).  Returns the
`Result<(), String>` together with the updated record. -/
def checkSpam (act : Option UserActivity) (now : Nat) : Except SpamMsg Unit × UserActivity :=
  let a := act.getD (freshActivity now)
  if a.is_banned then
    match a.ban_until with
    | some bu =>
        if now < bu then
          (Except.error (SpamMsg.banRemaining ((bu - now) / 1000)), a)
        else
          spamAccounting
            { a with is_banned := false, ban_until := none,
                     message_count := 0, warnings := 0 } now
    | none => spamAccounting a now
  else
    spamAccounting a now

/-- Results of running `check_spam` over a sequence of message arrival
times for one identifier, threading the record as the shared map entry
does in the source. -/
def runSpam : Option UserActivity → List Nat → List (Except SpamMsg Unit)
  | _, [] => []
  | act, t :: ts =>
      (checkSpam act t).1 :: runSpam (some (checkSpam act t).2) ts

/-- Enum `WsFrame` from main.rs lines 17-29 (field `from` is called
`from_` because `from` is a Lean keyword). -/
inductive WsFrame where
  | assign (id : String) (color : String)
  | msg (from_ : String) (text : String) (color : String) (to_ : Option String)
  | upload (from_ : String) (url : String) (filename : String) (to_ : Option String)
  | system (text : String)
  | help (commands : List String)
  | whisper (from_ : String) (to_ : String) (text : String) (color : String)
  | blocked (from_ : String)
  | warn (text : String)
  | banned (reason : String)
deriving DecidableEq, Repr

/-- True exactly for the variants the `match` in the outbound loop
(main.rs lines 230-237) subjects to the block filter: `Msg` and
`Whisper`. -/
def isFilterEligible : WsFrame → Bool
  | WsFrame.msg _ _ _ _ => true
  | WsFrame.whisper _ _ _ _ => true
  | _ => false

/-- True exactly for the variants of the wire enum (main.rs lines 17-29)
that declare a `from` field: `Msg`, `Upload`, `Whisper`, `Blocked`. -/
def hasFromField : WsFrame → Bool
  | WsFrame.msg _ _ _ _ => true
  | WsFrame.upload _ _ _ _ => true
  | WsFrame.whisper _ _ _ _ => true
  | WsFrame.blocked _ => true
  | _ => false

/-- Discriminator for the `Banned` wire variant. -/
def isBannedFrame : WsFrame → Bool
  | WsFrame.banned _ => true
  | _ => false

/-- Discriminator for the `Warn` wire variant. -/
def isWarnFrame : WsFrame → Bool
  | WsFrame.warn _ => true
  | _ => false

/-- Whether a `check_spam` rejection is the warning notice
(the format string at main.rs line 192). -/
def isWarnNotice : SpamMsg → Bool
  | SpamMsg.warnCount _ _ => true
  | _ => false

/-- Whether a `check_spam` rejection is one of the two ban notices
(the strings at main.rs lines 165 and 189). -/
def isBanNotice : SpamMsg → Bool
  | SpamMsg.banRemaining _ => true
  | SpamMsg.bannedNow => true
  | _ => false

/-- Discriminator for the `Whisper` wire variant. -/
def isWhisperFrame : WsFrame → Bool
  | WsFrame.whisper _ _ _ _ => true
  | _ => false

/-- Discriminator for the `System` wire variant. -/
def isSystemFrame : WsFrame → Bool
  | WsFrame.system _ => true
  | _ => false

/-- Discriminator for the `Msg` (public chat) wire variant. -/
def isMsgFrame : WsFrame → Bool
  | WsFrame.msg _ _ _ _ => true
  | _ => false

/-- The suppression test of the outbound loop, main.rs lines 230-237:
a `Msg` or `Whisper` frame whose `from` is in the session's block list
is skipped; every other frame is not. -/
def shouldSuppress (f : WsFrame) (bl : Finset String) : Bool :=
  match f with
  | WsFrame.msg from_ _ _ _ => decide (from_ ∈ bl)
  | WsFrame.whisper from_ _ _ _ => decide (from_ ∈ bl)
  | _ => false

/-- Whether the outbound loop writes the frame to the connection
(main.rs lines 239-240): the negation of suppression. -/
def delivers (f : WsFrame) (bl : Finset String) : Bool :=
  !shouldSuppress f bl

/-- `block_list.insert(target)` at main.rs line 277. -/
def blockAdd (bl : Finset String) (target : String) : Finset String :=
  insert target bl

/-- `block_list.remove(target)` at main.rs line 293. -/
def blockRemove (bl : Finset String) (target : String) : Finset String :=
  bl.erase target

/-- Rust `str::trim`: strips leading and trailing whitespace.  Defined on
the character list so that it evaluates by kernel reduction. -/
def strTrim (s : String) : String :=
  String.mk (((s.data.dropWhile Char.isWhitespace).reverse.dropWhile Char.isWhitespace).reverse)

/-- Drop the first `n` characters of a string (character-list based). -/
def strDrop (s : String) (n : Nat) : String :=
  String.mk (s.data.drop n)

/-- Rust `str::starts_with` (character-list based so that it evaluates by
kernel reduction). -/
def strStartsWith (s p : String) : Bool :=
  p.data.isPrefixOf s.data

/-- Rust `str::trim_start_matches`: repeatedly strips the prefix while it
matches.  Fuel-based (the fuel `s.length + 1` always suffices since each
step shortens a nonempty prefix). -/
def trimStartMatchesAux (p : String) : Nat → String → String
  | 0, s => s
  | n + 1, s =>
      if p.length > 0 ∧ strStartsWith s p then
        trimStartMatchesAux p n (strDrop s p.length)
      else s

/-- Rust `s.trim_start_matches(p)`. -/
def trimStartMatches (s p : String) : String :=
  trimStartMatchesAux p (s.length + 1) s

/-- The `/help` command listing, main.rs lines 257-264. -/
def helpCommands : List String :=
  ["/help - 도움말 보기",
   "/w [대상] [메시지] - 귓속말 보내기",
   "/block [대상] - 사용자 차단",
   "/unblock [대상] - 사용자 차단 해제",
   "/upload - 파일 업로드",
   "주의: 도배 시 자동 차단됩니다"]

/-- Effects of one iteration of the inbound loop on a text payload
(main.rs lines 246-351): frames sent directly to this session's own
connection, frames published to the broadcast bus, entries appended to
the history, the updated block list and the updated activity record. -/
structure StepOut where
  direct : List WsFrame
  published : List WsFrame
  histAppend : List WsFrame
  blockList : Finset String
  activity : UserActivity
deriving DecidableEq

/-- One inbound text payload processed by the session's inbound loop,
main.rs lines 246-351: the `check_spam` gate first (a rejection is wrapped
into a `Warn` frame at line 248 and sent only to this sender), then the
command dispatch in source order: `/help`, `/block `, `/unblock `,
`/w `, `/upload `, and the default public-chat branch which appends the
`Msg` frame to history and publishes it. -/
def handleText (id color : String) (bl : Finset String) (act : Option UserActivity)
    (now : Nat) (text : String) : StepOut :=
  match checkSpam act now with
  | (Except.error m, a) =>
      ⟨[WsFrame.warn (renderSpamMsg m)], [], [], bl, a⟩
  | (Except.ok _, a) =>
      if strTrim text = "/help" then
        ⟨[WsFrame.help helpCommands], [], [], bl, a⟩
      else if strStartsWith text "/block " then
        let target := strTrim (trimStartMatches text "/block ")
        if target ≠ "" then
          ⟨[WsFrame.system (target ++ " 사용자를 차단했습니다")], [], [],
           blockAdd bl target, a⟩
        else ⟨[], [], [], bl, a⟩
      else if strStartsWith text "/unblock " then
        let target := strTrim (trimStartMatches text "/unblock ")
        if target ≠ "" then
          ⟨[WsFrame.system (target ++ " 사용자 차단을 해제했습니다")], [], [],
           blockRemove bl target, a⟩
        else ⟨[], [], [], bl, a⟩
      else if strStartsWith text "/w " then
        let content := trimStartMatches text "/w "
        match content.data.findIdx? (fun c => c = ' ') with
        | some i =>
            let target := strTrim (String.mk (content.data.take i))
            let msgText := strTrim (String.mk (content.data.drop (i + 1)))
            if target ≠ "" ∧ msgText ≠ "" then
              ⟨[], [WsFrame.whisper id target msgText color], [], bl, a⟩
            else ⟨[], [], [], bl, a⟩
        | none => ⟨[], [], [], bl, a⟩
      else if strStartsWith text "/upload " then
        let filename := strTrim (trimStartMatches text "/upload ")
        ⟨[WsFrame.system ("파일 업로드를 위해 선택 버튼을 사용해주세요: " ++ filename)],
         [], [], bl, a⟩
      else
        ⟨[], [WsFrame.msg id text color none], [WsFrame.msg id text color none], bl, a⟩

/-- One server-side session: identity, color, its private block list, and
the frames its outbound loop has forwarded from its bus subscription. -/
structure Session where
  id : String
  color : String
  blockList : Finset String
  busReceived : List WsFrame
deriving DecidableEq

/-- Delivery of a batch of bus-published frames to one subscriber's
connection through its outbound loop (main.rs lines 226-242). -/
def fanout (published : List WsFrame) (t : Session) : Session :=
  { t with busReceived := t.busReceived ++ published.filter (fun f => delivers f t.blockList) }

/-- Update the sessions after one inbound step by session `i`: session `i`
takes the updated block list, and every session's outbound loop receives
the published frames through its own subscription to the one shared bus
(`state.tx`, main.rs lines 215 and 319/350). -/
def applySessions (published : List WsFrame) (newBl : Finset String) :
    Nat → List Session → List Session
  | _, [] => []
  | 0, t :: ts =>
      fanout published { t with blockList := newBl } :: ts.map (fanout published)
  | n + 1, t :: ts =>
      fanout published t :: applySessions published newBl n ts

/-- The shared server state: the live sessions, the history log, the trace
of frames published to the broadcast bus, and the per-identifier activity
map of `check_spam`. -/
structure ChatSystem where
  sessions : List Session
  history : List WsFrame
  bus : List WsFrame
  activities : String → Option UserActivity

/-- One inbound text payload from session `i` processed against the whole
system: runs `handleText` with that session's identity and state, appends
the history entries, records the published frames on the bus and fans them
out to every session's subscription, and updates the sender's activity
record.  Returns the new system and the frames sent directly (and only) to
the sender's connection. -/
def systemInbound (sys : ChatSystem) (i : Nat) (text : String) (now : Nat) :
    ChatSystem × List WsFrame :=
  match sys.sessions[i]? with
  | none => (sys, [])
  | some s =>
      let out := handleText s.id s.color s.blockList (sys.activities s.id) now text
      ({ sessions := applySessions out.published out.blockList i sys.sessions,
         history := sys.history ++ out.histAppend,
         bus := sys.bus ++ out.published,
         activities := fun x => if x = s.id then some out.activity else sys.activities x },
       out.direct)

/-- The frames built by `upload_handler` (main.rs lines 393-399) from the
`(originalName, storedName)` pairs of an upload. -/
def uploadFrames (files : List (String × String)) : List WsFrame :=
  files.map (fun p => WsFrame.upload "system" ("/uploads/" ++ p.2) p.1 none)

/-- The broadcast phase of `upload_handler` (main.rs lines 393-404): each
upload frame is published on the bus (`state.tx.send`) and fanned out to
every session; the history log is not touched there. -/
def uploadStep (sys : ChatSystem) (files : List (String × String)) : ChatSystem :=
  { sys with bus := sys.bus ++ uploadFrames files,
             sessions := sys.sessions.map (fanout (uploadFrames files)) }

/-- The history replay loop at connection time, main.rs lines 206-211:
each stored entry is written to the new connection in order. -/
def replayFrames : List WsFrame → List WsFrame
  | [] => []
  | f :: rest => f :: replayFrames rest

/-- Everything written to a new connection before its loops start
(main.rs lines 206-213): the history replay followed by the
identity-assignment frame. -/
def connectOutput (hist : List WsFrame) (id color : String) : List WsFrame :=
  replayFrames hist ++ [WsFrame.assign id color]

/-- A one-session test system whose only identifier is currently banned
(record as left by a ban triggered at time 0). -/
def sysBannedOne : ChatSystem :=
  ⟨[⟨"u1", "#aabbcc", ∅, []⟩], [], [],
   fun x => if x = "u1" then some ⟨6, 0, 1, true, some 300000⟩ else none⟩

/-- A one-session test system with no activity records. -/
def sysClearOne : ChatSystem :=
  ⟨[⟨"u1", "#aabbcc", ∅, []⟩], [], [], fun _ => none⟩

/- ------------------------------------------------------------------ -/
/- Helper lemmas about the embedded operations.                        -/
/- ------------------------------------------------------------------ -/

/-- A first message from an unseen identifier is accepted and leaves a
record with count 1 and no warnings. -/
theorem checkSpam_fresh (t : Nat) :
    checkSpam none t = (Except.ok (), ⟨1, t, 0, false, none⟩) := by
  simp [checkSpam, freshActivity, spamAccounting, ONE_SECOND, MESSAGE_COUNT_LIMIT]

/-- An unbanned sender inside the 1-second window whose incremented count
stays within the burst threshold is accepted. -/
theorem checkSpam_accept (k last t w : Nat) (hgap : t - last < ONE_SECOND)
    (hk : k + 1 ≤ MESSAGE_COUNT_LIMIT) :
    checkSpam (some ⟨k, last, w, false, none⟩) t =
      (Except.ok (), ⟨k + 1, t, w, false, none⟩) := by
  simp [checkSpam, spamAccounting, hgap, Nat.not_lt.mpr hk]

/-- An unbanned sender whose incremented count exceeds the burst threshold
is banned at once: with `MAX_WARNINGS = 1` the warning counter reaches the
limit on its first increment, so the rejection is the ban notice of
main.rs line 189, never the warning notice of line 192. -/
theorem checkSpam_ban_trigger (k last t w : Nat) (hgap : t - last < ONE_SECOND)
    (hk : MESSAGE_COUNT_LIMIT < k + 1) :
    checkSpam (some ⟨k, last, w, false, none⟩) t =
      (Except.error SpamMsg.bannedNow,
        ⟨k + 1, t, w + 1, true, some (t + BAN_DURATION)⟩) := by
  simp [checkSpam, spamAccounting, hgap, hk, MAX_WARNINGS,
        show (1 : Nat) ≤ w + 1 by omega]

/-- A banned sender inside the ban window is rejected with the remaining
seconds and the record is not mutated (main.rs lines 161-165). -/
theorem checkSpam_banned_wait (a : UserActivity) (bu t : Nat) (hb : a.is_banned = true)
    (hbu : a.ban_until = some bu) (ht : t < bu) :
    checkSpam (some a) t = (Except.error (SpamMsg.banRemaining ((bu - t) / 1000)), a) := by
  simp [checkSpam, hb, hbu, ht]

/-- The warning notice of main.rs line 192 is dead code: with
`MAX_WARNINGS = 1` no call of `check_spam` can return it. -/
theorem checkSpam_never_warnCount (act : Option UserActivity) (now c l : Nat) :
    (checkSpam act now).1 ≠ Except.error (SpamMsg.warnCount c l) := by
  have key : ∀ a : UserActivity, (spamAccounting a now).1 ≠ Except.error (SpamMsg.warnCount c l) := by
    intro a
    simp only [spamAccounting, MAX_WARNINGS]
    split_ifs <;> simp_all
  unfold checkSpam
  rcases act with _ | a
  · simpa using key (freshActivity now)
  · simp only [Option.getD]
    split
    · rcases hbu : a.ban_until with _ | bu
      · simpa [hbu] using key a
      · simp only [hbu]
        split
        · simp
        · exact key _
    · exact key a

/-- Delivering an empty batch from the bus leaves a session unchanged. -/
theorem fanout_nil (t : Session) : fanout [] t = t := by
  simp [fanout]

/-- When nothing was published and the block list did not change,
the sessions are unchanged. -/
theorem applySessions_nil_self (ss : List Session) :
    ∀ (i : Nat) (s : Session), ss[i]? = some s →
      applySessions [] s.blockList i ss = ss := by
  induction ss with
  | nil => intro i s h; simp at h
  | cons t ts ih =>
      intro i s h
      cases i with
      | zero =>
          simp at h
          subst h
          have hmap : ts.map (fanout []) = ts := by
            have : fanout ([] : List WsFrame) = id := funext fanout_nil
            rw [this, List.map_id]
          simp [applySessions, fanout_nil, hmap]
      | succ n =>
          simp only [List.getElem?_cons_succ] at h
          simp [applySessions, fanout_nil, ih n s h]

/-- The session at index `i` after an inbound step: its block list is the
updated one and it receives the published frames through its own
subscription. -/
theorem applySessions_get (pub : List WsFrame) (newBl : Finset String) :
    ∀ (ss : List Session) (i : Nat) (s : Session), ss[i]? = some s →
      (applySessions pub newBl i ss)[i]? =
        some (fanout pub { s with blockList := newBl }) := by
  intro ss
  induction ss with
  | nil => intro i s h; simp at h
  | cons t ts ih =>
      intro i s h
      cases i with
      | zero => simp at h; subst h; simp [applySessions]
      | succ n =>
          simp only [List.getElem?_cons_succ] at h
          simp [applySessions, ih n s h]

/-- The replay loop forwards the history verbatim. -/
theorem replayFrames_id (l : List WsFrame) : replayFrames l = l := by
  induction l with
  | nil => rfl
  | cons a l ih => simp [replayFrames, ih]

/-- No branch of the inbound dispatch ever constructs a `Banned` wire
frame: the `Banned` variant of main.rs line 28 is never produced. -/
theorem handleText_no_banned (id color : String) (bl : Finset String)
    (act : Option UserActivity) (now : Nat) (text : String) (f : WsFrame)
    (hf : f ∈ (handleText id color bl act now text).direct ∨
          f ∈ (handleText id color bl act now text).published ∨
          f ∈ (handleText id color bl act now text).histAppend) :
    isBannedFrame f = false := by
  unfold handleText at hf
  rcases hck : checkSpam act now with ⟨r, a⟩
  rw [hck] at hf
  cases r with
  | error m => simp_all [isBannedFrame]
  | ok u =>
      iterate 8 (all_goals (try split at hf))
      all_goals (simp only [apply_ite StepOut.direct, apply_ite StepOut.published,
        apply_ite StepOut.histAppend] at hf)
      iterate 4 (all_goals (try split at hf))
      all_goals simp_all [isBannedFrame]

/- ------------------------------------------------------------------ -/
/- Claim theorems.                                                     -/
/- ------------------------------------------------------------------ -/

/-- C1 counterexample: for a fresh identifier sending six messages less
than one second apart, the sixth message (the first to exceed the burst
threshold) is rejected with the immediate-ban notice of main.rs line 189,
not with a warning notice: with `MAX_WARNINGS = 1`, the warning counter
reaches the limit on its first increment. -/
theorem burst_sixth_message_is_ban_not_warning :
    runSpam none [0, 150, 300, 450, 600, 750] =
      [Except.ok (), Except.ok (), Except.ok (), Except.ok (), Except.ok (),
       Except.error SpamMsg.bannedNow] ∧
    isWarnNotice SpamMsg.bannedNow = false ∧
    isBanNotice SpamMsg.bannedNow = true := by
  decide

/-- C1 (amended): for every identifier, in a burst of eight messages each
arriving strictly later than and less than one second after the previous
one, messages 1-5 are accepted; message 6 (the first to exceed the burst
threshold of 5) is rejected with the ban notice (not a warning: the
warning limit of 1 is reached at once); messages 7 and 8, inside the ban
window, are rejected with ban notices carrying the remaining time, whose
raw value strictly decreases (the displayed whole-second value is
non-increasing). -/
theorem burst_ban_sequence (t1 t2 t3 t4 t5 t6 t7 t8 : Nat)
    (o12 : t1 < t2) (o23 : t2 < t3) (o34 : t3 < t4) (o45 : t4 < t5)
    (o56 : t5 < t6) (o67 : t6 < t7) (o78 : t7 < t8)
    (g12 : t2 - t1 < 1000) (g23 : t3 - t2 < 1000) (g34 : t4 - t3 < 1000)
    (g45 : t5 - t4 < 1000) (g56 : t6 - t5 < 1000) (g67 : t7 - t6 < 1000)
    (g78 : t8 - t7 < 1000) :
    runSpam none [t1, t2, t3, t4, t5, t6, t7, t8] =
      [Except.ok (), Except.ok (), Except.ok (), Except.ok (), Except.ok (),
       Except.error SpamMsg.bannedNow,
       Except.error (SpamMsg.banRemaining ((t6 + BAN_DURATION - t7) / 1000)),
       Except.error (SpamMsg.banRemaining ((t6 + BAN_DURATION - t8) / 1000))] ∧
    t6 + BAN_DURATION - t8 < t6 + BAN_DURATION - t7 ∧
    (t6 + BAN_DURATION - t8) / 1000 ≤ (t6 + BAN_DURATION - t7) / 1000 := by
  have s1 := checkSpam_fresh t1
  have s2 := checkSpam_accept 1 t1 t2 0 g12 (by norm_num [MESSAGE_COUNT_LIMIT])
  have s3 := checkSpam_accept 2 t2 t3 0 g23 (by norm_num [MESSAGE_COUNT_LIMIT])
  have s4 := checkSpam_accept 3 t3 t4 0 g34 (by norm_num [MESSAGE_COUNT_LIMIT])
  have s5 := checkSpam_accept 4 t4 t5 0 g45 (by norm_num [MESSAGE_COUNT_LIMIT])
  have s6 := checkSpam_ban_trigger 5 t5 t6 0 g56 (by norm_num [MESSAGE_COUNT_LIMIT])
  have s7 := checkSpam_banned_wait ⟨6, t6, 1, true, some (t6 + BAN_DURATION)⟩
    (t6 + BAN_DURATION) t7 rfl rfl (by simp only [BAN_DURATION]; omega)
  have s8 := checkSpam_banned_wait ⟨6, t6, 1, true, some (t6 + BAN_DURATION)⟩
    (t6 + BAN_DURATION) t8 rfl rfl (by simp only [BAN_DURATION]; omega)
  refine ⟨?_, ?_, ?_⟩
  · simp [runSpam, s1, s2, s3, s4, s5, s6, s7, s8]
  · simp only [BAN_DURATION]; omega
  · exact Nat.div_le_div_right (by simp only [BAN_DURATION]; omega)

/-- C1 witness: the burst sequence at concrete times 0,150,...,1050 ms. -/
theorem burst_ban_sequence_witness :
    runSpam none [0, 150, 300, 450, 600, 750, 900, 1050] =
      [Except.ok (), Except.ok (), Except.ok (), Except.ok (), Except.ok (),
       Except.error SpamMsg.bannedNow,
       Except.error (SpamMsg.banRemaining ((750 + BAN_DURATION - 900) / 1000)),
       Except.error (SpamMsg.banRemaining ((750 + BAN_DURATION - 1050) / 1000))] ∧
    750 + BAN_DURATION - 1050 < 750 + BAN_DURATION - 900 ∧
    (750 + BAN_DURATION - 1050) / 1000 ≤ (750 + BAN_DURATION - 900) / 1000 :=
  burst_ban_sequence 0 150 300 450 600 750 900 1050
    (by decide) (by decide) (by decide) (by decide) (by decide) (by decide) (by decide)
    (by decide) (by decide) (by decide) (by decide) (by decide) (by decide) (by decide)

/-- C2 counterexample: a sender rejected inside the ban window receives a
`warn`-variant wire frame (main.rs line 248 wraps every rejection in
`WsFrame::Warn`), not a `banned`-variant frame. -/
theorem ban_rejection_sent_as_warn_variant :
    (handleText "u1" "#aabbcc" ∅ (some ⟨6, 0, 1, true, some 300000⟩) 1000 "hello").direct =
      [WsFrame.warn "차단 상태입니다. 299초 후에 다시 시도해주세요."] ∧
    isWarnFrame (WsFrame.warn "차단 상태입니다. 299초 후에 다시 시도해주세요.") = true ∧
    isBannedFrame (WsFrame.warn "차단 상태입니다. 299초 후에 다시 시도해주세요.") = false := by
  decide

/-- C2 (amended): whenever the gate rejects a message — for a ban just
imposed, a message inside the ban window, or a warning — the notice
delivered to the sender is a single `warn`-variant frame carrying the
rejection string; the `banned` wire variant is never produced by the
inbound dispatch on any input. -/
theorem rejection_notice_wire_variant (id color : String) (bl : Finset String)
    (act : Option UserActivity) (now : Nat) (text : String) (m : SpamMsg)
    (a : UserActivity) (hrej : checkSpam act now = (Except.error m, a)) :
    (handleText id color bl act now text).direct = [WsFrame.warn (renderSpamMsg m)] ∧
    (∀ (id2 color2 : String) (bl2 : Finset String) (act2 : Option UserActivity)
        (now2 : Nat) (text2 : String) (f : WsFrame),
      (f ∈ (handleText id2 color2 bl2 act2 now2 text2).direct ∨
       f ∈ (handleText id2 color2 bl2 act2 now2 text2).published ∨
       f ∈ (handleText id2 color2 bl2 act2 now2 text2).histAppend) →
      isBannedFrame f = false) := by
  constructor
  · simp [handleText, hrej]
  · intro id2 color2 bl2 act2 now2 text2 f hf
    exact handleText_no_banned id2 color2 bl2 act2 now2 text2 f hf

/-- C2 witness: a concrete banned sender's rejection notice. -/
theorem rejection_notice_wire_variant_witness :
    checkSpam (some ⟨6, 0, 1, true, some 300000⟩) 1000 =
      (Except.error (SpamMsg.banRemaining 299), ⟨6, 0, 1, true, some 300000⟩) ∧
    (handleText "u2" "#ffffff" ∅ (some ⟨6, 0, 1, true, some 300000⟩) 1000 "hey").direct =
      [WsFrame.warn (renderSpamMsg (SpamMsg.banRemaining 299))] :=
  ⟨by decide,
   (rejection_notice_wire_variant "u2" "#ffffff" ∅ (some ⟨6, 0, 1, true, some 300000⟩)
      1000 "hey" (SpamMsg.banRemaining 299) ⟨6, 0, 1, true, some 300000⟩ (by decide)).1⟩

/-- C3: a banned identifier's first message at or after `banUntil` is
accepted, with the warning count and rolling message count reset to zero
before normal accounting resumes (which then records this message as the
first of a fresh window). -/
theorem ban_expiry_accepts_and_resets (a : UserActivity) (bu t : Nat)
    (hb : a.is_banned = true) (hbu : a.ban_until = some bu) (ht : bu ≤ t) :
    checkSpam (some a) t = (Except.ok (), ⟨1, t, 0, false, none⟩) := by
  have hnlt : ¬ t < bu := Nat.not_lt.mpr ht
  rcases Nat.lt_or_ge (t - a.last_message_time) ONE_SECOND with hgap | hgap
  · simp [checkSpam, hb, hbu, hnlt, spamAccounting, hgap, MESSAGE_COUNT_LIMIT]
  · simp [checkSpam, hb, hbu, hnlt, spamAccounting, Nat.not_lt.mpr hgap, MESSAGE_COUNT_LIMIT]

/-- C3 witness: the record left by a ban at time 0, queried at exactly the
ban expiry time. -/
theorem ban_expiry_accepts_and_resets_witness :
    (⟨6, 0, 1, true, some 300000⟩ : UserActivity).is_banned = true ∧
    (⟨6, 0, 1, true, some 300000⟩ : UserActivity).ban_until = some 300000 ∧
    checkSpam (some ⟨6, 0, 1, true, some 300000⟩) 300000 =
      (Except.ok (), ⟨1, 300000, 0, false, none⟩) :=
  ⟨rfl, rfl, ban_expiry_accepts_and_resets ⟨6, 0, 1, true, some 300000⟩ 300000 300000
    rfl rfl (by decide)⟩

/-- C4: a text payload rejected by the gate has no shared effects: the
history log and the bus are unchanged, every session (block lists and
received streams included) is unchanged, and the only output is the
rejection notice sent directly to the offending sender's connection. -/
theorem rejected_message_no_shared_effects (sys : ChatSystem) (i : Nat) (s : Session)
    (text : String) (now : Nat) (m : SpamMsg) (a : UserActivity)
    (hs : sys.sessions[i]? = some s)
    (hrej : checkSpam (sys.activities s.id) now = (Except.error m, a)) :
    (systemInbound sys i text now).1.history = sys.history ∧
    (systemInbound sys i text now).1.bus = sys.bus ∧
    (systemInbound sys i text now).1.sessions = sys.sessions ∧
    (systemInbound sys i text now).2 = [WsFrame.warn (renderSpamMsg m)] := by
  have hout : handleText s.id s.color s.blockList (sys.activities s.id) now text =
      ⟨[WsFrame.warn (renderSpamMsg m)], [], [], s.blockList, a⟩ := by
    simp [handleText, hrej]
  have happ := applySessions_nil_self sys.sessions i s hs
  refine ⟨?_, ?_, ?_, ?_⟩
  · simp [systemInbound, hs, hout]
  · simp [systemInbound, hs, hout]
  · simp [systemInbound, hs, hout, happ]
  · simp [systemInbound, hs, hout]

/-- C4 witness: a banned sender's message against a one-session system. -/
theorem rejected_message_no_shared_effects_witness :
    (systemInbound sysBannedOne 0 "hi" 1000).1.history = [] ∧
    (systemInbound sysBannedOne 0 "hi" 1000).1.bus = [] ∧
    (systemInbound sysBannedOne 0 "hi" 1000).1.sessions = [⟨"u1", "#aabbcc", ∅, []⟩] ∧
    (systemInbound sysBannedOne 0 "hi" 1000).2 =
      [WsFrame.warn (renderSpamMsg (SpamMsg.banRemaining 299))] :=
  rejected_message_no_shared_effects sysBannedOne 0 ⟨"u1", "#aabbcc", ∅, []⟩ "hi" 1000
    (SpamMsg.banRemaining 299) ⟨6, 0, 1, true, some 300000⟩ rfl (by decide)

/-- C5: for a session whose block list contains `X`, the outbound loop
suppresses every `msg` and every `whisper` frame whose `from` field is
`X`, delivers every frame of any other variant regardless of sender, and
a session whose block list does not contain `X` still receives `X`'s
`msg` and `whisper` frames. -/
theorem blockfilter_outbound_filtering (bl : Finset String) (X : String) (hX : X ∈ bl) :
    (∀ text color to_, delivers (WsFrame.msg X text color to_) bl = false) ∧
    (∀ to2 text color, delivers (WsFrame.whisper X to2 text color) bl = false) ∧
    (∀ f, isFilterEligible f = false → delivers f bl = true) ∧
    (∀ bl2 : Finset String, X ∉ bl2 →
      (∀ text color to_, delivers (WsFrame.msg X text color to_) bl2 = true) ∧
      (∀ to2 text color, delivers (WsFrame.whisper X to2 text color) bl2 = true)) := by
  refine ⟨?_, ?_, ?_, ?_⟩
  · intro text color to_; simp [delivers, shouldSuppress, hX]
  · intro to2 text color; simp [delivers, shouldSuppress, hX]
  · intro f hf; cases f <;> simp_all [delivers, shouldSuppress, isFilterEligible]
  · intro bl2 hX2
    exact ⟨fun text color to_ => by simp [delivers, shouldSuppress, hX2],
           fun to2 text color => by simp [delivers, shouldSuppress, hX2]⟩

/-- C5 witness: a session that blocked `u2` suppresses `u2`'s chat frame
but still receives a system frame. -/
theorem blockfilter_outbound_filtering_witness :
    ("u2" ∈ ({"u2"} : Finset String)) ∧
    delivers (WsFrame.msg "u2" "hello" "#123456" none) {"u2"} = false ∧
    delivers (WsFrame.system "notice") {"u2"} = true :=
  ⟨by decide,
   (blockfilter_outbound_filtering {"u2"} "u2" (by decide)).1 "hello" "#123456" none,
   (blockfilter_outbound_filtering {"u2"} "u2" (by decide)).2.2.1
     (WsFrame.system "notice") (by decide)⟩

/-- C6 counterexample: an upload completion publishes an `upload` frame on
the bus while appending nothing to the history log, although the frame is
neither a whisper nor a system notice — so not every published
non-whisper, non-system frame is recorded in the history. -/
theorem upload_published_but_not_recorded :
    (uploadStep sysClearOne [("a.png", "123.png")]).bus =
      [WsFrame.upload "system" "/uploads/123.png" "a.png" none] ∧
    (uploadStep sysClearOne [("a.png", "123.png")]).history = [] ∧
    isWhisperFrame (WsFrame.upload "system" "/uploads/123.png" "a.png" none) = false ∧
    isSystemFrame (WsFrame.upload "system" "/uploads/123.png" "a.png" none) = false ∧
    WsFrame.upload "system" "/uploads/123.png" "a.png" none ∉
      (uploadStep sysClearOne [("a.png", "123.png")]).history := by
  refine ⟨rfl, rfl, rfl, rfl, by simp [uploadStep, sysClearOne]⟩

/-- C6 (amended): the history log is appended exactly on accepted public
chat messages: every frame appended by the inbound dispatch is the
sender's own `msg` frame and is also published; whisper frames are never
appended; an accepted plain chat message is appended and published; and
the upload broadcast publishes to the bus without touching the history. -/
theorem history_append_policy (id color : String) (bl : Finset String)
    (act : Option UserActivity) (now : Nat) (text : String) :
    (∀ f ∈ (handleText id color bl act now text).histAppend,
        f ∈ (handleText id color bl act now text).published ∧
        ∃ t2, f = WsFrame.msg id t2 color none) ∧
    (∀ f ∈ (handleText id color bl act now text).histAppend, isWhisperFrame f = false) ∧
    (∀ (sys : ChatSystem) (files : List (String × String)),
        (uploadStep sys files).history = sys.history) ∧
    (∀ a2 : UserActivity, checkSpam act now = (Except.ok (), a2) →
      strTrim text ≠ "/help" →
      strStartsWith text "/block " = false → strStartsWith text "/unblock " = false →
      strStartsWith text "/w " = false → strStartsWith text "/upload " = false →
      (handleText id color bl act now text).histAppend = [WsFrame.msg id text color none] ∧
      (handleText id color bl act now text).published = [WsFrame.msg id text color none]) := by
  have hcases : (handleText id color bl act now text).histAppend = [] ∨
      ((handleText id color bl act now text).histAppend =
          [WsFrame.msg id text color none] ∧
        (handleText id color bl act now text).published =
          [WsFrame.msg id text color none]) := by
    unfold handleText
    rcases hck : checkSpam act now with ⟨r, a⟩
    cases r with
    | error m => simp
    | ok u =>
        iterate 8 (all_goals (try split))
        all_goals (simp only [apply_ite StepOut.histAppend, apply_ite StepOut.published])
        iterate 4 (all_goals (try split))
        all_goals simp
  refine ⟨?_, ?_, ?_, ?_⟩
  · intro f hf
    rcases hcases with h | ⟨h1, h2⟩
    · rw [h] at hf; simp at hf
    · rw [h1] at hf
      simp at hf
      subst hf
      exact ⟨by rw [h2]; simp, text, rfl⟩
  · intro f hf
    rcases hcases with h | ⟨h1, _⟩
    · rw [h] at hf; simp at hf
    · rw [h1] at hf; simp at hf; subst hf; rfl
  · intro sys files; rfl
  · intro a2 hok hhelp hb hub hw hup
    constructor <;> simp [handleText, hok, hhelp, hb, hub, hw, hup]

/-- C6 witness: a plain chat message is both appended and published. -/
theorem history_append_policy_witness :
    checkSpam none 0 = (Except.ok (), ⟨1, 0, 0, false, none⟩) ∧
    (handleText "u1" "#aabbcc" ∅ none 0 "hello").histAppend =
      [WsFrame.msg "u1" "hello" "#aabbcc" none] ∧
    (handleText "u1" "#aabbcc" ∅ none 0 "hello").published =
      [WsFrame.msg "u1" "hello" "#aabbcc" none] :=
  ⟨by decide,
   ((history_append_policy "u1" "#aabbcc" ∅ none 0 "hello").2.2.2 ⟨1, 0, 0, false, none⟩
      (by decide) (by decide) (by decide) (by decide) (by decide) (by decide)).1,
   ((history_append_policy "u1" "#aabbcc" ∅ none 0 "hello").2.2.2 ⟨1, 0, 0, false, none⟩
      (by decide) (by decide) (by decide) (by decide) (by decide) (by decide)).2⟩

/-- C7: a new connection receives exactly the history contents at connect
time, in original order with no duplicates and nothing missing, and the
identity-assignment frame is written after the replay completes. -/
theorem connect_replay_exact (hist : List WsFrame) (id color : String) :
    connectOutput hist id color = hist ++ [WsFrame.assign id color] ∧
    (connectOutput hist id color).take hist.length = hist ∧
    (connectOutput hist id color)[hist.length]? = some (WsFrame.assign id color) := by
  have h := replayFrames_id hist
  refine ⟨?_, ?_, ?_⟩
  · simp [connectOutput, h]
  · simp [connectOutput, h, List.take_left]
  · simp [connectOutput, h]

/-- C8: the block filter has pure set semantics: `block` and `unblock`
are idempotent, `unblock X` after `block X` leaves `X` unblocked, and
`msg`/`whisper` frames from `X` published afterwards are delivered
again. -/
theorem blockfilter_set_semantics (bl : Finset String) (X text color : String)
    (to_ : Option String) (to2 : String) :
    blockAdd (blockAdd bl X) X = blockAdd bl X ∧
    blockRemove (blockRemove bl X) X = blockRemove bl X ∧
    X ∉ blockRemove (blockAdd bl X) X ∧
    delivers (WsFrame.msg X text color to_) (blockRemove (blockAdd bl X) X) = true ∧
    delivers (WsFrame.whisper X to2 text color) (blockRemove (blockAdd bl X) X) = true := by
  refine ⟨?_, ?_, ?_, ?_, ?_⟩
  · simp [blockAdd, Finset.insert_idem]
  · simp [blockRemove, Finset.erase_idem]
  · simp [blockAdd, blockRemove]
  · simp [delivers, shouldSuppress, blockAdd, blockRemove]
  · simp [delivers, shouldSuppress, blockAdd, blockRemove]

/-- C9 counterexample: the `upload` variant of the wire enum also carries
a `from` field, yet it is neither `msg` nor `whisper`, so those two are
not the only variants carrying `from`. -/
theorem upload_frame_carries_from :
    hasFromField (WsFrame.upload "system" "/uploads/123.png" "a.png" none) = true ∧
    isMsgFrame (WsFrame.upload "system" "/uploads/123.png" "a.png" none) = false ∧
    isWhisperFrame (WsFrame.upload "system" "/uploads/123.png" "a.png" none) = false := by
  decide

/-- C9 (amended): the variants carrying a `from` field are exactly `msg`,
`whisper`, `upload` and `blocked`; `msg` and `whisper` are exactly the
variants subject to block-filter suppression, and no other variant is
ever suppressed. -/
theorem from_field_vs_filter_eligibility (f : WsFrame) :
    (hasFromField f = true ↔
      (isMsgFrame f = true ∨ isWhisperFrame f = true ∨
       (∃ from_ url filename to_, f = WsFrame.upload from_ url filename to_) ∨
       (∃ from_, f = WsFrame.blocked from_))) ∧
    (isFilterEligible f = true ↔ (isMsgFrame f = true ∨ isWhisperFrame f = true)) ∧
    (∀ bl : Finset String, isFilterEligible f = false → shouldSuppress f bl = false) := by
  cases f <;> simp [hasFromField, isMsgFrame, isWhisperFrame, isFilterEligible, shouldSuppress]

/-- C9 witness: an upload frame from a blocked sender is still not
suppressed. -/
theorem from_field_vs_filter_eligibility_witness :
    isFilterEligible (WsFrame.upload "u9" "/uploads/9.png" "9.png" none) = false ∧
    shouldSuppress (WsFrame.upload "u9" "/uploads/9.png" "9.png" none) {"u9"} = false :=
  ⟨by decide,
   (from_field_vs_filter_eligibility (WsFrame.upload "u9" "/uploads/9.png" "9.png" none)).2.2
     {"u9"} (by decide)⟩

/-- C10: a session publishes its accepted public chat message to the same
bus its own outbound loop is subscribed to, so the published frame lands
on the bus and the sender's own session receives a copy — unless the
sender's own identifier is in its own block list, in which case its own
frame is suppressed from its own stream. -/
theorem sender_receives_own_chat (sys : ChatSystem) (i : Nat) (s : Session)
    (text : String) (now : Nat) (a2 : UserActivity)
    (hs : sys.sessions[i]? = some s)
    (hok : checkSpam (sys.activities s.id) now = (Except.ok (), a2))
    (hhelp : strTrim text ≠ "/help")
    (hb : strStartsWith text "/block " = false)
    (hub : strStartsWith text "/unblock " = false)
    (hw : strStartsWith text "/w " = false)
    (hup : strStartsWith text "/upload " = false) :
    (systemInbound sys i text now).1.bus = sys.bus ++ [WsFrame.msg s.id text s.color none] ∧
    (systemInbound sys i text now).1.sessions[i]? =
      some { s with busReceived := s.busReceived ++
        (if s.id ∈ s.blockList then [] else [WsFrame.msg s.id text s.color none]) } := by
  have hout : handleText s.id s.color s.blockList (sys.activities s.id) now text =
      ⟨[], [WsFrame.msg s.id text s.color none], [WsFrame.msg s.id text s.color none],
       s.blockList, a2⟩ := by
    simp [handleText, hok, hhelp, hb, hub, hw, hup]
  constructor
  · simp [systemInbound, hs, hout]
  · have hget := applySessions_get [WsFrame.msg s.id text s.color none] s.blockList
      sys.sessions i s hs
    simp only [systemInbound, hs, hout]
    rw [hget]
    by_cases hmem : s.id ∈ s.blockList <;>
      simp [fanout, delivers, shouldSuppress, hmem, List.filter]

/-- C10 witness: a single session with an empty block list receives its
own chat message back from the bus. -/
theorem sender_receives_own_chat_witness :
    (systemInbound sysClearOne 0 "hello" 0).1.bus =
      [WsFrame.msg "u1" "hello" "#aabbcc" none] ∧
    (systemInbound sysClearOne 0 "hello" 0).1.sessions[0]? =
      some ⟨"u1", "#aabbcc", ∅, [WsFrame.msg "u1" "hello" "#aabbcc" none]⟩ :=
  sender_receives_own_chat sysClearOne 0 ⟨"u1", "#aabbcc", ∅, []⟩ "hello" 0
    ⟨1, 0, 0, false, none⟩ rfl (by decide) (by decide) (by decide) (by decide)
    (by decide) (by decide)

end IkmyungChat
